import Mathlib

/-!
# Verification of the HNG PACKAGING SOLUTION backend (`src/main.py`)

Shallow embedding of the FastAPI backend in `src/main.py`.

Modelling conventions, fixed once here:

* A BSON/JSON document (a Python `dict`) is an association list
  `Doc = List (String × Value)`; Python `dict` assignment overwrites the
  existing key in place or appends a fresh key at the end, which `setKey`
  mirrors, and `dict.pop` removes the key, which `eraseKey` mirrors.
* Mongo `ObjectId`s are modelled as opaque naturals (`Value.oid n`);
  `str(ObjectId)` is modelled as the decimal rendering of that natural.
  Malformed object-id strings (which `bson.ObjectId` rejects with an
  exception that the handler turns into a 500) are outside the model:
  an item's `product_id` is already an identifier.
* Python floats are modelled as exact rationals `ℚ`.  Every price in the
  code and the spec is a 2-decimal value, and no property below depends on
  binary floating-point rounding error or on tie-breaking at exact
  halfway values (the spec's own open question leaves the rounding mode
  at ties unspecified); `round2` uses Mathlib's `round`.
* `database.py` and `schemas.py` are imported by `main.py` but are not part
  of the sources; the definitions derived from them carry a
  `Modelled from the spec:` doc comment.
-/

/-- A BSON value as it occurs in this backend's documents. -/
inductive Value where
  | str (s : String)
  | num (q : ℚ)
  | bool (b : Bool)
  | oid (n : Nat)
  | null
  | arr (vs : List Value)
  | obj (fields : List (String × Value))

/-- A document (Python `dict` with string keys). -/
abbrev Doc := List (String × Value)

/-- `doc[k]` lookup: value of the first pair with key `k`. -/
def getKey : Doc → String → Option Value
  | [], _ => none
  | (k', v) :: rest, k => if k' = k then some v else getKey rest k

/-- Python `doc[k] = v`: overwrite the first occurrence of `k` in place,
or append the new pair at the end when `k` is absent. -/
def setKey : Doc → String → Value → Doc
  | [], k, v => [(k, v)]
  | (k', v') :: rest, k, v =>
    if k' = k then (k, v) :: rest else (k', v') :: setKey rest k v

/-- Python `doc.pop(k)` (the removal part): drop every pair keyed `k`.
Documents that come from Python `dict`s have distinct keys, so at most one
pair is dropped on any input the code ever builds. -/
def eraseKey : Doc → String → Doc
  | [], _ => []
  | (k', v) :: rest, k =>
    if k' = k then eraseKey rest k else (k', v) :: eraseKey rest k

/-- Python `str(...)` on the `Value`s this backend passes to it.
`serialize_doc` only ever applies it to an `ObjectId` (`oid`); the other
branches are unexercised placeholders. -/
def pyStr : Value → String
  | .oid n => toString n
  | .str s => s
  | .bool b => if b then "True" else "False"
  | .null => "None"
  | .num _ => ""
  | .arr _ => ""
  | .obj _ => ""

/-- `serialize_doc` from `src/main.py` lines 27–33.  `None` input is modelled
as `none`, the Python falsy check `if not doc` as the `none`/`isEmpty` tests. -/
def serialize_doc (doc : Option Doc) : Option Doc :=
  match doc with
  | none => none
  | some d =>
    if d.isEmpty then some d
    else
      match getKey d "_id" with
      | some v => some (setKey (eraseKey d "_id") "id" (.str (pyStr v)))
      | none => some d

/-- Serialization of one non-`None` document, as used by `list_products`. -/
def serializeD (d : Doc) : Doc :=
  (serialize_doc (some d)).getD d

-- Association-list lemmas used throughout.

theorem getKey_setKey_self (d : Doc) (k : String) (v : Value) :
    getKey (setKey d k v) k = some v := by
  induction d with
  | nil => simp [setKey, getKey]
  | cons p rest ih =>
    obtain ⟨k', v'⟩ := p
    by_cases h : k' = k
    · simp [setKey, h, getKey]
    · simp [setKey, h, getKey, ih]

theorem getKey_setKey_ne (d : Doc) (k k' : String) (v : Value) (h : k' ≠ k) :
    getKey (setKey d k v) k' = getKey d k' := by
  induction d with
  | nil => simp [setKey, getKey, Ne.symm h]
  | cons p rest ih =>
    obtain ⟨k₀, v₀⟩ := p
    by_cases hp : k₀ = k
    · subst hp
      simp [setKey, getKey, Ne.symm h]
    · by_cases hq : k₀ = k'
      · simp [setKey, getKey, hp, hq, h]
      · simp [setKey, getKey, hp, hq, ih]

theorem getKey_eraseKey_self (d : Doc) (k : String) :
    getKey (eraseKey d k) k = none := by
  induction d with
  | nil => simp [eraseKey, getKey]
  | cons p rest ih =>
    obtain ⟨k₀, v₀⟩ := p
    by_cases hp : k₀ = k
    · simp [eraseKey, hp, ih]
    · simp [eraseKey, getKey, hp, ih]

theorem getKey_eraseKey_ne (d : Doc) (k k' : String) (h : k' ≠ k) :
    getKey (eraseKey d k) k' = getKey d k' := by
  induction d with
  | nil => simp [eraseKey]
  | cons p rest ih =>
    obtain ⟨k₀, v₀⟩ := p
    by_cases hp : k₀ = k
    · have hp' : k₀ ≠ k' := by rw [hp]; exact Ne.symm h
      simp [eraseKey, getKey, hp, hp', ih, Ne.symm h]
    · by_cases hq : k₀ = k'
      · simp [eraseKey, getKey, hp, hq, h]
      · simp [eraseKey, getKey, hp, hq, ih]

-- ## The store and the database layer

/-- The document store visible to this backend: the `product` and `order`
collections, and the next identifier the store will assign.  The model
assumes the store handle `db` is present (every claim below is about store
states, not about the bootstrap of the connection). -/
structure Store where
  products : List Doc
  orders : List Doc
  nextId : Nat

/-- Modelled from the spec: `database.create_document` (not in the sources)
"inserts a new product record, store assigns a unique identifier, returns
it".  The store stamps the document with the assigned `_id`. -/
def create_document (docs : List Doc) (nid : Nat) (doc : Doc) : List Doc × Nat :=
  (docs ++ [setKey doc "_id" (.oid nid)], nid)

/-- Does the document's `category` field equal `c` (the Mongo filter
`{"category": c}` on string categories)? -/
def matchesCategory (d : Doc) (c : String) : Bool :=
  match getKey d "category" with
  | some (.str s) => s = c
  | _ => false

/-- Modelled from the spec: `database.get_documents` (not in the sources):
a filtered read; with filter `some c` it "returns only products whose
category field exactly matches (case-sensitive equality)", with no filter
it returns all documents, in natural storage order. -/
def get_documents (docs : List Doc) (query : Option String) : List Doc :=
  match query with
  | none => docs
  | some c => docs.filter (fun d => matchesCategory d c)

/-- `db["product"].find_one({"_id": ObjectId(pid)})`. -/
def matchesOid (d : Doc) (n : Nat) : Bool :=
  match getKey d "_id" with
  | some (.oid m) => m = n
  | _ => false

def findProduct (s : Store) (pid : Nat) : Option Doc :=
  s.products.find? (fun d => matchesOid d pid)

-- ## Endpoints

/-- Response of `POST /seed`. -/
structure SeedResult where
  message : String
  count : Nat

/-- The three sample products of `src/main.py` lines 42–67. -/
def sampleProducts : List Doc :=
  [ [("title", .str "Corrugated Boxes - Small"),
     ("description", .str "Durable small corrugated boxes for light shipments."),
     ("price", .num (12.99 : ℚ)),
     ("category", .str "Boxes"),
     ("image", .str "https://images.unsplash.com/photo-1585166276991-9a6f4018f3a0"),
     ("in_stock", .bool true)],
    [("title", .str "Bubble Wrap Roll"),
     ("description", .str "High-quality bubble wrap for fragile items."),
     ("price", .num (19.5 : ℚ)),
     ("category", .str "Protective"),
     ("image", .str "https://images.unsplash.com/photo-1585386959984-a4155223168f"),
     ("in_stock", .bool true)],
    [("title", .str "Packing Tape - Heavy Duty"),
     ("description", .str "Strong adhesive packing tape for secure sealing."),
     ("price", .num (4.75 : ℚ)),
     ("category", .str "Tape"),
     ("image", .str "https://images.unsplash.com/photo-1516637090014-cb1ab0d08fc7"),
     ("in_stock", .bool true)] ]

/-- `seed_products` (`POST /seed`), `src/main.py` lines 36–72.
`count_documents({})` is the length of the product collection. -/
def seed_products (s : Store) : Store × SeedResult :=
  let count := s.products.length
  if count > 0 then
    (s, ⟨"Products already seeded", count⟩)
  else
    let s' := sampleProducts.foldl
      (fun st p =>
        let (ps, _) := create_document st.products st.nextId p
        { st with products := ps, nextId := st.nextId + 1 })
      s
    (s', ⟨"Seeded sample products", sampleProducts.length⟩)

/-- `list_products` (`GET /products`), `src/main.py` lines 75–82.
The Python guard `if category` is a truthiness test: both `None` and the
empty string select the unfiltered query `{}`. -/
def list_products (s : Store) (category : Option String) : List Doc :=
  let query : Option String :=
    match category with
    | some c => if c = "" then none else some c
    | none => none
  (get_documents s.products query).map serializeD

-- ## Orders

/-- The two error kinds of the backend: `HTTPException(404, detail)` and
`HTTPException(500, detail)`. -/
inductive ApiError where
  | notFound (detail : String)
  | internal (detail : String)
deriving DecidableEq

/-- Modelled from the spec: `schemas.OrderItem` (not in the sources):
"product reference (identifier string), quantity (positive integer)".
The reference is modelled as the identifier it denotes. -/
structure OrderItem where
  product_id : Nat
  quantity : Nat
deriving DecidableEq

/-- Modelled from the spec: `schemas.Order` / `CreateOrderRequest` (not in
the sources): "buyer reference fields (... opaque pass-through data),
ordered sequence of OrderItem, computed total_amount (derived, not
client-supplied)".  `total_amount` holds whatever value the client supplied
(`Value.null` when absent), since `create_order` overwrites it anyway. -/
structure OrderReq where
  buyer : List (String × Value)
  items : List OrderItem
  total_amount : Value

/-- `round(x, 2)`.  Mathlib's `round` rounds half-up; Python's rounds
half-to-even; no property below evaluates at an exact halfway value, where
alone the two differ. -/
def round2 (q : ℚ) : ℚ :=
  (round (q * 100) : ℤ) / 100

/-- `float(prod.get("price", 0))`: a missing `price` field counts as 0.
A non-numeric `price` makes `float` raise (modelled as `none`, which
`create_order` turns into the generic 500). -/
def priceOf (prod : Doc) : Option ℚ :=
  match (getKey prod "price").getD (.num 0) with
  | .num q => some q
  | .bool b => some (if b then 1 else 0)
  | _ => none

/-- Does this item's product resolve (lookup succeeds and its price
converts)?  The loop of `create_order` passes such an item without error. -/
def itemResolves (s : Store) (it : OrderItem) : Bool :=
  match findProduct s it.product_id with
  | some prod => (priceOf prod).isSome
  | none => false

/-- The price-times-quantity contribution of one item, for stating the
total invariant. -/
def itemAmount (s : Store) (it : OrderItem) : ℚ :=
  match findProduct s it.product_id with
  | some prod => (priceOf prod).getD 0 * it.quantity
  | none => 0

/-- The total-computation loop of `create_order` (`src/main.py` lines
100–105), instrumented with the list of product identifiers it actually
looks up: the state is the running total `acc` and the lookups so far `tr`.
The second component is the loop's outcome. -/
def computeTotalAux (s : Store) :
    List OrderItem → ℚ → List Nat → List Nat × Except ApiError ℚ
  | [], acc, tr => (tr, .ok acc)
  | it :: rest, acc, tr =>
    let tr' := tr ++ [it.product_id]
    match findProduct s it.product_id with
    | none =>
      (tr', .error (.notFound ("Product not found: " ++ toString it.product_id)))
    | some prod =>
      match priceOf prod with
      | none => (tr', .error (.internal "could not convert value to float"))
      | some p => computeTotalAux s rest (acc + p * it.quantity) tr'

/-- The dump of one order item inside `order.model_dump()`. -/
def itemToValue (it : OrderItem) : Value :=
  .obj [("product_id", .str (toString it.product_id)),
        ("quantity", .num it.quantity)]

/-- `order.model_dump()`: the buyer's pass-through fields, the items, and
the client-supplied `total_amount` (non-items fields modelled from the
spec, the schema being outside the sources). -/
def modelDump (o : OrderReq) : Doc :=
  o.buyer ++ [("items", .arr (o.items.map itemToValue)),
              ("total_amount", o.total_amount)]

/-- `create_order` (`POST /orders`), `src/main.py` lines 96–113: compute
the total over the items, overwrite `total_amount` with its rounding,
persist into the `order` collection, return `(id, total)`.  On error the
store is returned unchanged — nothing was written before the final
insert. -/
def create_order (s : Store) (o : OrderReq) : Store × Except ApiError (Nat × ℚ) :=
  match (computeTotalAux s o.items 0 []).2 with
  | .error e => (s, .error e)
  | .ok total =>
    let od := setKey (modelDump o) "total_amount" (.num (round2 total))
    let (os, nid) := create_document s.orders s.nextId od
    ({ s with orders := os, nextId := s.nextId + 1 }, .ok (nid, round2 total))

-- ## Diagnostic endpoint

/-- The states the `db` handle can be in when `GET /test` runs: absent
(`db is None`), raising on attribute access (caught by the outer
`except`), raising in `list_collection_names` (caught by the inner
`except`), or working. -/
inductive DbState where
  | absent
  | raising (msg : String)
  | listFails (msg : String)
  | ok (collections : List String)

/-- Response of `GET /test`. -/
structure TestResponse where
  backend : String
  database : String
  database_url : String
  database_name : String
  connection_status : String
  collections : List String

/-- `test_database` (`GET /test`), `src/main.py` lines 115–150.  A total
function: every path of the handler is inside a `try`/`except` and returns
the response object, so no state raises.  The intermediate assignments to
`database_url` / `database_name` (lines 121–122, 130–131) are dead stores:
lines 147–148 overwrite both from the environment flags unconditionally. -/
def test_database (db : DbState) (envUrl envName : Bool) : TestResponse :=
  let r0 : TestResponse :=
    { backend := "✅ Running"
      database := "❌ Not Available"
      database_url := "None"
      database_name := "None"
      connection_status := "Not Connected"
      collections := [] }
  let r1 :=
    match db with
    | .absent => { r0 with database := "⚠️  Available but not initialized" }
    | .raising msg => { r0 with database := "❌ Error: " ++ msg.take 50 }
    | .listFails msg =>
      { r0 with database := "⚠️  Connected but Error: " ++ msg.take 50
                connection_status := "Connected" }
    | .ok cols =>
      { r0 with database := "✅ Connected & Working"
                connection_status := "Connected"
                collections := cols.take 10 }
  { r1 with database_url := if envUrl then "✅ Set" else "❌ Not Set"
            database_name := if envName then "✅ Set" else "❌ Not Set" }

-- ## Decidability and store well-formedness

instance {ε α : Type} [DecidableEq ε] [DecidableEq α] : DecidableEq (Except ε α) :=
  fun x y =>
    match x, y with
    | .ok a, .ok b =>
      if h : a = b then .isTrue (by rw [h])
      else .isFalse (fun hc => h (Except.ok.inj hc))
    | .error a, .error b =>
      if h : a = b then .isTrue (by rw [h])
      else .isFalse (fun hc => h (Except.error.inj hc))
    | .ok _, .error _ => .isFalse (fun hc => Except.noConfusion hc)
    | .error _, .ok _ => .isFalse (fun hc => Except.noConfusion hc)

/-- Does the document carry a store-assigned `_id`?  Every document a Mongo
collection returns does; `list_products` claims are stated under this
well-formedness of the product collection. -/
def hasOid (d : Doc) : Bool :=
  match getKey d "_id" with
  | some (.oid _) => true
  | _ => false

-- ## Concrete states used by the witnesses

/-- A catalog product: identifier 1, price 12.99, category `Boxes`. -/
def prodA : Doc :=
  [("_id", .oid 1), ("title", .str "Corrugated Boxes - Small"),
   ("price", .num (12.99 : ℚ)), ("category", .str "Boxes")]

/-- A catalog product: identifier 2, price 19.50, category `Protective`. -/
def prodB : Doc :=
  [("_id", .oid 2), ("title", .str "Bubble Wrap Roll"),
   ("price", .num (19.5 : ℚ)), ("category", .str "Protective")]

/-- A catalog product with an `_id` but no `price` field. -/
def prodNP : Doc :=
  [("_id", .oid 9), ("title", .str "Unpriced sample")]

/-- A store holding `prodA` and `prodB` and no orders. -/
def store2 : Store := ⟨[prodA, prodB], [], 3⟩

/-- A store holding `prodA` and the priceless `prodNP`. -/
def storeNP : Store := ⟨[prodA, prodNP], [], 10⟩

/-- The order of the spec's worked example: 2 × product 1 and 1 × product 2,
with a client-supplied `total_amount` that must be ignored. -/
def orderAB : OrderReq :=
  ⟨[("customer_name", .str "Ada")], [⟨1, 2⟩, ⟨2, 1⟩], .num (99 : ℚ)⟩

/-- An order whose second item references the nonexistent product 7. -/
def orderMiss : OrderReq :=
  ⟨[("customer_name", .str "Ada")], [⟨1, 1⟩, ⟨7, 2⟩, ⟨2, 1⟩], .null⟩

/-- An order with no items and a client-supplied `total_amount`. -/
def orderEmpty : OrderReq :=
  ⟨[("customer_name", .str "Ada")], [], .num (99 : ℚ)⟩

-- ## Helper lemmas about the total-computation loop

theorem computeTotalAux_resolved (s : Store) :
    ∀ (items : List OrderItem) (acc : ℚ) (tr : List Nat),
      (∀ it ∈ items, itemResolves s it = true) →
      computeTotalAux s items acc tr =
        (tr ++ items.map OrderItem.product_id,
         .ok (acc + (items.map (itemAmount s)).sum)) := by
  intro items
  induction items with
  | nil => intro acc tr _; simp [computeTotalAux]
  | cons it rest ih =>
    intro acc tr h
    have hit := h it (List.mem_cons_self it rest)
    have hrest : ∀ x ∈ rest, itemResolves s x = true :=
      fun x hx => h x (List.mem_cons_of_mem _ hx)
    unfold itemResolves at hit
    cases hf : findProduct s it.product_id with
    | none => rw [hf] at hit; simp at hit
    | some prod =>
      rw [hf] at hit
      cases hp : priceOf prod with
      | none => simp [hp] at hit
      | some p =>
        have ha : itemAmount s it = p * it.quantity := by
          simp [itemAmount, hf, hp]
        simp [computeTotalAux, hf, hp, ih _ _ hrest, ha, add_assoc]

theorem computeTotalAux_fails (s : Store) :
    ∀ (pre : List OrderItem) (it : OrderItem) (rest : List OrderItem)
      (acc : ℚ) (tr : List Nat),
      (∀ x ∈ pre, itemResolves s x = true) →
      findProduct s it.product_id = none →
      computeTotalAux s (pre ++ it :: rest) acc tr =
        (tr ++ pre.map OrderItem.product_id ++ [it.product_id],
         .error (.notFound ("Product not found: " ++ toString it.product_id))) := by
  intro pre
  induction pre with
  | nil => intro it rest acc tr _ hmiss; simp [computeTotalAux, hmiss]
  | cons x pre' ih =>
    intro it rest acc tr h hmiss
    have hx := h x (List.mem_cons_self x pre')
    have hpre' : ∀ y ∈ pre', itemResolves s y = true :=
      fun y hy => h y (List.mem_cons_of_mem _ hy)
    unfold itemResolves at hx
    cases hf : findProduct s x.product_id with
    | none => rw [hf] at hx; simp at hx
    | some prod =>
      rw [hf] at hx
      cases hp : priceOf prod with
      | none => simp [hp] at hx
      | some p =>
        simp [computeTotalAux, hf, hp, ih it rest _ _ hpre' hmiss]

theorem round2_zero : round2 0 = 0 := by
  simp [round2]

-- ## Claims

/-- C5: an order whose items list is empty succeeds with total 0.00, and the
order document is still persisted (the `order` collection grows by exactly
the dumped document, stamped with the computed total and the assigned
identifier). -/
theorem claim_C5_empty_order (s : Store) (o : OrderReq) (h : o.items = []) :
    (create_order s o).2 = .ok (s.nextId, 0) ∧
    (create_order s o).1.orders = s.orders ++
      [setKey (setKey (modelDump o) "total_amount" (.num 0)) "_id"
        (.oid s.nextId)] := by
  constructor <;> simp [create_order, h, computeTotalAux, create_document, round2_zero]

theorem claim_C5_witness :
    (create_order store2 orderEmpty).2 = .ok (3, 0) ∧
    (create_order store2 orderEmpty).1.orders = store2.orders ++
      [setKey (setKey (modelDump orderEmpty) "total_amount" (.num 0)) "_id"
        (.oid 3)] :=
  claim_C5_empty_order store2 orderEmpty rfl

/-- C8: the diagnostic endpoint is a total function of the store state —
absent, raising on access, failing in `list_collection_names`, or working —
so it never raises; the backend field always reports running and the
database field reports the store failure inline. -/
theorem claim_C8_test_database (db : DbState) (u n : Bool) :
    (test_database db u n).backend = "✅ Running" ∧
    (test_database db u n).database =
      (match db with
       | .absent => "⚠️  Available but not initialized"
       | .raising msg => "❌ Error: " ++ msg.take 50
       | .listFails msg => "⚠️  Connected but Error: " ++ msg.take 50
       | .ok _ => "✅ Connected & Working") ∧
    (test_database db u n).database_url =
      (if u then "✅ Set" else "❌ Not Set") ∧
    (test_database db u n).database_name =
      (if n then "✅ Set" else "❌ Not Set") := by
  cases db <;> simp [test_database]

/-- C9: an order item whose product exists but has no `price` field is
priced at 0 — `float(prod.get("price", 0))` — so the loop passes it without
error and it contributes nothing to the total. -/
theorem claim_C9_missing_price (s : Store) (it : OrderItem)
    (rest : List OrderItem) (acc : ℚ) (tr : List Nat) (prod : Doc)
    (hfind : findProduct s it.product_id = some prod)
    (hnp : getKey prod "price" = none) :
    itemAmount s it = 0 ∧
    computeTotalAux s (it :: rest) acc tr =
      computeTotalAux s rest acc (tr ++ [it.product_id]) := by
  have hp : priceOf prod = some 0 := by simp [priceOf, hnp]
  constructor
  · simp [itemAmount, hfind, hp]
  · simp [computeTotalAux, hfind, hp]

theorem claim_C9_witness :
    itemAmount storeNP ⟨9, 5⟩ = 0 ∧
    computeTotalAux storeNP [⟨9, 5⟩] 0 [] = computeTotalAux storeNP [] 0 [9] :=
  claim_C9_missing_price storeNP ⟨9, 5⟩ [] 0 [] prodNP rfl rfl

/-- C4: for an order of 2 × product 1 and 1 × product 2 over a catalog where
product 1 costs 12.99 and product 2 costs 19.50, `create_order` returns the
total `round(12.99*2 + 19.50*1, 2) = 45.48`. -/
theorem claim_C4_worked_example :
    (create_order store2 orderAB).2 = .ok (3, (45.48 : ℚ)) := by
  have hsum : (orderAB.items.map (itemAmount store2)).sum = (45.48 : ℚ) := by
    have h1 : findProduct store2 1 = some prodA := rfl
    have h2 : findProduct store2 2 = some prodB := rfl
    have p1 : priceOf prodA = some (12.99 : ℚ) := rfl
    have p2 : priceOf prodB = some (19.5 : ℚ) := rfl
    simp [orderAB, itemAmount, h1, h2, p1, p2]
    norm_num
  have h := computeTotalAux_resolved store2 orderAB.items 0 [] (by decide)
  rw [hsum] at h
  have hr : round2 (45.48 : ℚ) = 45.48 := by norm_num [round2]
  simp [create_order, h, hr, create_document]
  rfl

/-- C1: whenever every item of the request resolves, `create_order` succeeds
and both the returned total and the `total_amount` field of the one document
appended to the `order` collection equal the sum of price × quantity over
the items, rounded to two decimal places; the conclusion does not depend on
the client-supplied `total_amount` of the request, which `setKey` overwrites
with the computed value. -/
theorem claim_C1_computed_total (s : Store) (o : OrderReq)
    (h : ∀ it ∈ o.items, itemResolves s it = true) :
    (create_order s o).2 =
      .ok (s.nextId, round2 ((o.items.map (itemAmount s)).sum)) ∧
    (create_order s o).1.orders = s.orders ++
      [setKey (setKey (modelDump o) "total_amount"
          (.num (round2 ((o.items.map (itemAmount s)).sum)))) "_id"
        (.oid s.nextId)] ∧
    getKey (setKey (setKey (modelDump o) "total_amount"
          (.num (round2 ((o.items.map (itemAmount s)).sum)))) "_id"
        (.oid s.nextId)) "total_amount" =
      some (.num (round2 ((o.items.map (itemAmount s)).sum))) := by
  have hc := computeTotalAux_resolved s o.items 0 [] h
  refine ⟨?_, ?_, ?_⟩
  · simp [create_order, hc, create_document]
  · simp [create_order, hc, create_document]
  · rw [getKey_setKey_ne _ "_id" "total_amount" _ (by decide), getKey_setKey_self]

theorem claim_C1_witness :
    (create_order store2 orderAB).2 =
      .ok (store2.nextId, round2 ((orderAB.items.map (itemAmount store2)).sum)) ∧
    (create_order store2 orderAB).1.orders = store2.orders ++
      [setKey (setKey (modelDump orderAB) "total_amount"
          (.num (round2 ((orderAB.items.map (itemAmount store2)).sum)))) "_id"
        (.oid store2.nextId)] ∧
    getKey (setKey (setKey (modelDump orderAB) "total_amount"
          (.num (round2 ((orderAB.items.map (itemAmount store2)).sum)))) "_id"
        (.oid store2.nextId)) "total_amount" =
      some (.num (round2 ((orderAB.items.map (itemAmount store2)).sum))) :=
  claim_C1_computed_total store2 orderAB (by decide)

/-- C2: if the items list splits as `pre ++ it :: rest` where every item of
`pre` resolves and `it`'s product reference does not, `create_order` leaves
the store unchanged (no order document is persisted), fails with the 404
`Product not found` error naming the missing identifier, and the loop looks
up exactly the products of `pre` and the failing item — none of `rest`. -/
theorem claim_C2_not_found (s : Store) (o : OrderReq)
    (pre : List OrderItem) (it : OrderItem) (rest : List OrderItem)
    (hsplit : o.items = pre ++ it :: rest)
    (hpre : ∀ x ∈ pre, itemResolves s x = true)
    (hmiss : findProduct s it.product_id = none) :
    (create_order s o).1 = s ∧
    (create_order s o).2 =
      .error (.notFound ("Product not found: " ++ toString it.product_id)) ∧
    (computeTotalAux s o.items 0 []).1 =
      pre.map OrderItem.product_id ++ [it.product_id] := by
  have hc := computeTotalAux_fails s pre it rest 0 [] hpre hmiss
  refine ⟨?_, ?_, ?_⟩ <;> simp [create_order, hsplit, hc]

theorem claim_C2_witness :
    (create_order store2 orderMiss).1 = store2 ∧
    (create_order store2 orderMiss).2 =
      .error (.notFound "Product not found: 7") ∧
    (computeTotalAux store2 orderMiss.items 0 []).1 = [1, 7] :=
  claim_C2_not_found store2 orderMiss [⟨1, 1⟩] ⟨7, 2⟩ [⟨2, 1⟩] rfl (by decide) rfl

/-- C3 (counterexample): the guard `if category` is a Python truthiness
test, so the provided category `""` selects the unfiltered query: over a
catalog whose products are categorised `Boxes` and `Protective`, every
product is returned although none has category `""` — refuting "for every
provided category string, exactly the case-sensitively matching products
are returned". -/
theorem claim_C3_counterexample :
    list_products store2 (some "") = [serializeD prodA, serializeD prodB] ∧
    store2.products.filter (fun d => matchesCategory d "") = [] ∧
    getKey prodA "category" = some (.str "Boxes") ∧
    list_products store2 (some "") ≠
      (store2.products.filter (fun d => matchesCategory d "")).map serializeD := by
  have h1 : list_products store2 (some "") = [serializeD prodA, serializeD prodB] := rfl
  have h2 : (store2.products.filter (fun d => matchesCategory d "")).map serializeD =
      ([] : List Doc) := rfl
  refine ⟨h1, rfl, rfl, ?_⟩
  intro hc
  rw [h1, h2] at hc
  exact List.noConfusion hc

/-- C3 (amended): for every provided NON-EMPTY category string,
`list_products` returns exactly the products whose category field is
case-sensitively equal to it (serialized); with no category argument — or
with the empty string, which the truthiness guard treats as absent — it
returns all products. -/
theorem claim_C3_list_products (s : Store) (c : String) (hc : c ≠ "") :
    list_products s (some c) =
      (s.products.filter (fun d => matchesCategory d c)).map serializeD ∧
    list_products s none = s.products.map serializeD ∧
    list_products s (some "") = s.products.map serializeD := by
  refine ⟨?_, ?_, ?_⟩ <;> simp [list_products, get_documents, hc]

theorem claim_C3_witness :
    list_products store2 (some "Boxes") =
      (store2.products.filter (fun d => matchesCategory d "Boxes")).map serializeD ∧
    list_products store2 none = store2.products.map serializeD ∧
    list_products store2 (some "") = store2.products.map serializeD :=
  claim_C3_list_products store2 "Boxes" (by decide)

-- Helper lemmas for the seeding claim.

theorem seed_products_of_nonempty (s : Store) (h : s.products ≠ []) :
    seed_products s = (s, ⟨"Products already seeded", s.products.length⟩) := by
  have hpos : 0 < s.products.length := List.length_pos.mpr h
  simp [seed_products, hpos]

theorem seed_products_result_nonempty (s : Store) :
    (seed_products s).1.products ≠ [] := by
  by_cases h : s.products = []
  · simp [seed_products, h, sampleProducts, create_document]
  · rw [seed_products_of_nonempty s h]
    exact h

/-- C6: seeding is idempotent — on any store whose product collection is
non-empty, `seed_products` returns the store unchanged and reports the
existing count; and whatever the starting store, a second call to
`seed_products` changes nothing and reports the count the first call left
behind, so calling `/seed` twice never duplicates the sample products. -/
theorem claim_C6_seed_idempotent (s : Store) :
    (s.products ≠ [] →
      seed_products s = (s, ⟨"Products already seeded", s.products.length⟩)) ∧
    seed_products (seed_products s).1 =
      ((seed_products s).1,
       ⟨"Products already seeded", (seed_products s).1.products.length⟩) :=
  ⟨fun h => seed_products_of_nonempty s h,
   seed_products_of_nonempty _ (seed_products_result_nonempty s)⟩

theorem claim_C6_witness :
    seed_products store2 = (store2, ⟨"Products already seeded", 2⟩) ∧
    seed_products (seed_products store2).1 =
      ((seed_products store2).1,
       ⟨"Products already seeded", (seed_products store2).1.products.length⟩) :=
  ⟨(claim_C6_seed_idempotent store2).1 (by simp [store2]),
   (claim_C6_seed_idempotent store2).2⟩

-- Helper lemma for the listing claims.

theorem get_documents_subset (docs : List Doc) (q : Option String) :
    ∀ d ∈ get_documents docs q, d ∈ docs := by
  intro d hd
  cases q with
  | none => exact hd
  | some c => exact (List.mem_filter.mp hd).1

/-- C7: over a product collection whose documents all carry a
store-assigned `_id` (as every Mongo document does), every document the
listing endpoint returns has no `_id` key, and carries an `id` key holding
the string rendering of the `_id` of a product in the collection. -/
theorem claim_C7_id_serialization (s : Store) (c : Option String)
    (h : ∀ d ∈ s.products, hasOid d = true) :
    ∀ d' ∈ list_products s c, getKey d' "_id" = none ∧
      ∃ n, getKey d' "id" = some (.str (toString n)) ∧
        ∃ d ∈ s.products, getKey d "_id" = some (.oid n) := by
  intro d' hd'
  simp only [list_products, List.mem_map] at hd'
  obtain ⟨d, hd, hser⟩ := hd'
  have hdp : d ∈ s.products := get_documents_subset _ _ d hd
  have hoid := h d hdp
  unfold hasOid at hoid
  cases hid : getKey d "_id" with
  | none => rw [hid] at hoid; simp at hoid
  | some v =>
    rw [hid] at hoid
    cases v with
    | oid n =>
      have hne : d.isEmpty = false := by
        cases d with
        | nil => simp [getKey] at hid
        | cons p rest => rfl
      have hs : serializeD d = setKey (eraseKey d "_id") "id" (.str (toString n)) := by
        simp [serializeD, serialize_doc, hne, hid, pyStr]
      refine ⟨?_, n, ?_, d, hdp, hid⟩
      · rw [← hser, hs, getKey_setKey_ne _ "id" "_id" _ (by decide), getKey_eraseKey_self]
      · rw [← hser, hs, getKey_setKey_self]
    | str ss => simp at hoid
    | num q => simp at hoid
    | bool b => simp at hoid
    | null => simp at hoid
    | arr vs => simp at hoid
    | obj fs => simp at hoid

theorem claim_C7_witness :
    getKey (serializeD prodA) "_id" = none ∧
    ∃ n, getKey (serializeD prodA) "id" = some (.str (toString n)) ∧
      ∃ d ∈ store2.products, getKey d "_id" = some (.oid n) :=
  claim_C7_id_serialization store2 none (by decide) (serializeD prodA)
    (by simp [list_products, get_documents, store2])

/-- C10 (counterexample): on a document that carries both `_id` and a
pre-existing `id` key, `doc["id"] = str(doc.pop("_id"))` overwrites the
`id` value — so `serialize_doc` does not leave every key other than `_id`
unchanged. -/
theorem claim_C10_counterexample :
    getKey [("_id", .oid 5), ("id", .str "x")] "id" = some (.str "x") ∧
    serialize_doc (some [("_id", .oid 5), ("id", .str "x")]) =
      some [("id", .str "5")] ∧
    getKey (serializeD [("_id", .oid 5), ("id", .str "x")]) "id" ≠
      getKey [("_id", .oid 5), ("id", .str "x")] "id" := by
  refine ⟨rfl, rfl, ?_⟩
  intro hc
  have hc' : (some (Value.str "5") : Option Value) = some (.str "x") := hc
  exact absurd (Value.str.inj (Option.some.inj hc')) (by decide)

/-- C10 (amended): `serialize_doc` returns `None` and the empty document
unchanged, returns a document without `_id` unchanged, leaves every key
other than `_id` AND `id` unchanged, and when `_id` is present removes it
and re-exposes its string rendering under `id` — overwriting any
pre-existing `id` value. -/
theorem claim_C10_serialize_frame (d : Doc) (k : String)
    (hk : k ≠ "_id") (hk' : k ≠ "id") :
    serialize_doc none = none ∧
    serialize_doc (some d) = some (serializeD d) ∧
    (getKey d "_id" = none → serializeD d = d) ∧
    getKey (serializeD d) k = getKey d k ∧
    (∀ w, getKey d "_id" = some w →
      getKey (serializeD d) "_id" = none ∧
      getKey (serializeD d) "id" = some (.str (pyStr w))) := by
  by_cases he : d.isEmpty = true
  · have hd : d = [] := by
      cases d with
      | nil => rfl
      | cons p r => simp [List.isEmpty] at he
    subst hd
    refine ⟨rfl, rfl, fun _ => rfl, rfl, ?_⟩
    intro w hw
    simp [getKey] at hw
  · have he' : d.isEmpty = false := by simpa using he
    cases hid : getKey d "_id" with
    | none =>
      have hs : serializeD d = d := by simp [serializeD, serialize_doc, he', hid]
      refine ⟨rfl, ?_, fun _ => hs, by rw [hs], ?_⟩
      · rw [hs]; simp [serialize_doc, he', hid]
      · intro w hw
        exact Option.noConfusion hw
    | some v =>
      have hs : serializeD d = setKey (eraseKey d "_id") "id" (.str (pyStr v)) := by
        simp [serializeD, serialize_doc, he', hid]
      refine ⟨rfl, ?_, ?_, ?_, ?_⟩
      · rw [hs]; simp [serialize_doc, he', hid]
      · intro hnone
        exact Option.noConfusion hnone
      · rw [hs, getKey_setKey_ne _ "id" k _ hk', getKey_eraseKey_ne _ "_id" k hk]
      · intro w hw
        obtain rfl : v = w := Option.some.inj hw
        constructor
        · rw [hs, getKey_setKey_ne _ "id" "_id" _ (by decide), getKey_eraseKey_self]
        · rw [hs, getKey_setKey_self]

theorem claim_C10_witness :
    serialize_doc none = none ∧
    serialize_doc (some [("_id", .oid 5), ("name", .str "x")]) =
      some (serializeD [("_id", .oid 5), ("name", .str "x")]) ∧
    (getKey [("_id", .oid 5), ("name", .str "x")] "_id" = none →
      serializeD [("_id", .oid 5), ("name", .str "x")] =
        [("_id", .oid 5), ("name", .str "x")]) ∧
    getKey (serializeD [("_id", .oid 5), ("name", .str "x")]) "name" =
      getKey [("_id", .oid 5), ("name", .str "x")] "name" ∧
    (∀ w, getKey [("_id", .oid 5), ("name", .str "x")] "_id" = some w →
      getKey (serializeD [("_id", .oid 5), ("name", .str "x")]) "_id" = none ∧
      getKey (serializeD [("_id", .oid 5), ("name", .str "x")]) "id" =
        some (.str (pyStr w))) :=
  claim_C10_serialize_frame [("_id", .oid 5), ("name", .str "x")] "name"
    (by decide) (by decide)
